import Mathlib

/-!
Verification development for the execution-job orchestration subsystem of the
Stranger-Tech server (source: `src/server.ts`, second variant, and the legacy
variant `src/unnamed/part_000`).  JavaScript strings are modelled as `List Char`;
JavaScript numbers that the scored paths use are modelled as exact rationals.
Each definition carries a pointer to the source lines it embeds.
-/

namespace STS

/-- JavaScript strings are modelled as lists of characters. -/
abbrev Str := List Char

/-- The character class matched by the JavaScript regex `\s`
(whitespace and line terminators). -/
def jsWhitespace (c : Char) : Bool :=
  c = ' ' || c = '\t' || c = '\n' || c = '\r' ||
  c = Char.ofNat 0x0b || c = Char.ofNat 0x0c || c = Char.ofNat 0xa0 ||
  c = Char.ofNat 0x1680 ||
  (Char.ofNat 0x2000 ≤ c && c ≤ Char.ofNat 0x200a) ||
  c = Char.ofNat 0x2028 || c = Char.ofNat 0x2029 || c = Char.ofNat 0x202f ||
  c = Char.ofNat 0x205f || c = Char.ofNat 0x3000 || c = Char.ofNat 0xfeff

/-- The straight quote characters removed by the regex `/['"]/g` in
`parseJudge0Output` (server.ts:856). -/
def isQuoteChar (c : Char) : Bool := c = '\'' || c = '"'

/-- ASCII lower-casing, modelling `String.prototype.toLowerCase` on the
character range the grader compares. -/
def toLowerAscii (c : Char) : Char :=
  if 'A' ≤ c && c ≤ 'Z' then Char.ofNat (c.toNat + 32) else c

/-- Model of `String.prototype.trim`: drop leading and trailing JS whitespace. -/
def trimChars (s : Str) : Str :=
  ((s.dropWhile jsWhitespace).reverse.dropWhile jsWhitespace).reverse

/-- The grader's normalizer (server.ts:852-860):
`String(val).replace(/\s+/g,'').replace(/['"]/g,'').replace(/\n/g,'').trim().toLowerCase()`.
Note that `/['"]/g` removes only the straight quote characters `'` and `"`. -/
def normalize (s : Str) : Str :=
  let s1 := s.filter (fun c => !(jsWhitespace c))
  let s2 := s1.filter (fun c => !(isQuoteChar c))
  let s3 := s2.filter (fun c => !(c = '\n'))
  (trimChars s3).map toLowerAscii

/-- The curly quote characters named by the specification. -/
def isCurlyQuote (c : Char) : Bool :=
  c = Char.ofNat 0x2018 || c = Char.ofNat 0x2019 ||
  c = Char.ofNat 0x201c || c = Char.ofNat 0x201d

/-- Modelled from the spec: the normalization the specification describes for
the grader — "strip all whitespace, strip straight/curly quote characters,
lower-case the remainder".  Kept only to compare against the source-derived
`normalize`. -/
def specNormalize (s : Str) : Str :=
  ((s.filter (fun c => !(jsWhitespace c))).filter
      (fun c => !(isQuoteChar c || isCurlyQuote c))).map toLowerAscii

/-- Does the string begin with the given pattern?  Models
`String.prototype.startsWith` (pattern first, subject second). -/
def startsWithStr : Str → Str → Bool
  | [], _ => true
  | _ :: _, [] => false
  | p :: ps, c :: cs => p == c && startsWithStr ps cs

/-- Does the needle occur as a contiguous substring?  Models
`String.prototype.includes`. -/
def containsSub (needle : Str) : Str → Bool
  | [] => startsWithStr needle []
  | c :: t => startsWithStr needle (c :: t) || containsSub needle t

/-- Remove the first occurrence of the needle, modelling
`String.prototype.replace(needle, '')` with a plain-string pattern. -/
def removeFirst (needle : Str) : Str → Str
  | [] => []
  | c :: t =>
    if startsWithStr needle (c :: t) then (c :: t).drop needle.length
    else c :: removeFirst needle t

/-- Modelled from the spec: the suffix after the first occurrence of the
needle ("the suffix after that substring is the actual result string").
Kept only to compare against the source's `replace`-based extraction. -/
def suffixAfterFirst (needle : Str) : Str → Option Str
  | [] => none
  | c :: t =>
    if startsWithStr needle (c :: t) then some ((c :: t).drop needle.length)
    else suffixAfterFirst needle t

/-- Split on newline characters, modelling `String.prototype.split('\n')`. -/
def splitOnNl : Str → List Str
  | [] => [[]]
  | c :: t =>
    if c = '\n' then [] :: splitOnNl t
    else
      match splitOnNl t with
      | [] => [[c]]
      | h :: r => (c :: h) :: r

/-- A structured parameter value: integer, string, or boolean
(the spec's data model for test-case parameters). -/
inductive JAtom where
  | num (n : Int)
  | str (s : Str)
  | bool (b : Bool)
deriving DecidableEq

/-- A parameter value: an atom or an ordered sequence of atoms. -/
inductive JVal where
  | atom (a : JAtom)
  | arr (l : List JAtom)
deriving DecidableEq

/-- One test case (server.ts:481-486): input description, expected output,
visibility flag, and the parameter mapping (a JS object, modelled as an
ordered association list). -/
structure TestCase where
  input : Str
  expected : Str
  hidden : Bool
  params : List (Str × JVal)
deriving DecidableEq

/-- A problem (server.ts:488-496). -/
structure Problem where
  id : Str
  title : Str
  testCases : List TestCase
  functionName : Str
  runner_code_java : Option Str
  runner_code_cpp : Option Str
  runner_code_c : Option Str
deriving DecidableEq

/-- One per-case result object built by `parseJudge0Output`
(server.ts:866-872). -/
structure CaseResult where
  status : Str
  input : Str
  expected : Str
  actual : Str
  params : List (Str × JVal)
deriving DecidableEq

/-- The marker lines: lines of raw stdout that start with `__JUDGE__ `
(server.ts:847). -/
def judgeLines (stdout : Str) : List Str :=
  (splitOnNl stdout).filter (fun l => startsWithStr "__JUDGE__ ".data l)

/-- The search string for the test case at 0-based index `i`
(server.ts:863): `__JUDGE__ Test Case ${index + 1}: `. -/
def searchStrFor (i : Nat) : Str :=
  "__JUDGE__ Test Case ".data ++ (Nat.repr (i + 1)).data ++ ": ".data

/-- Grade one test case (the body of the `forEach` at server.ts:862-893).
Returns the result object and the case's contribution to `passedCount`
(1 exactly when the increment at server.ts:885 runs).  The source
initializes `status` to `'Pending'` and always overwrites it before the
object is pushed; the match below produces the overwritten value directly. -/
def gradeCase (jls : List Str) (i : Nat) (tc : TestCase) : CaseResult × Nat :=
  let searchStr := searchStrFor i
  let inputField := if tc.hidden then "Hidden".data else tc.input
  let paramsField := if tc.hidden then [] else tc.params
  match jls.find? (fun l => containsSub searchStr l) with
  | some line =>
    let actualRaw := trimChars (removeFirst searchStr line)
    if normalize tc.expected = normalize actualRaw then
      ({ status := "Accepted".data, input := inputField, expected := tc.expected,
         actual := actualRaw, params := paramsField }, 1)
    else
      ({ status := "Wrong Answer".data, input := inputField, expected := tc.expected,
         actual := actualRaw, params := paramsField }, 0)
  | none =>
    ({ status := "Runtime Error".data, input := inputField, expected := tc.expected,
       actual := "N/A".data, params := paramsField }, 0)

/-- The `forEach` loop of `parseJudge0Output` (server.ts:862-893), rendered as
structural recursion with the running 0-based index `i`; results are pushed in
order and `passedCount` accumulates the per-case contributions. -/
def gradeCases (jls : List Str) : Nat → List TestCase → List CaseResult × Nat
  | _, [] => ([], 0)
  | i, tc :: rest =>
    let rd := gradeCase jls i tc
    let tail := gradeCases jls (i + 1) rest
    (rd.1 :: tail.1, rd.2 + tail.2)

/-- The output parser/grader `parseJudge0Output` (server.ts:846-896):
extract the marker lines and grade every test case. -/
def parseJudge0Output (stdout : Str) (problem : Problem) : List CaseResult × Nat :=
  gradeCases (judgeLines stdout) 0 problem.testCases

/-- Modelled from the spec: the claim's locator for the test case at 1-based
ordinal `i` — the first extracted marker line containing the literal substring
`Test Case <i>: ` (without the `__JUDGE__ ` prefix).  Kept only to compare
against the source's search string. -/
def specLocateLine (stdout : Str) (i : Nat) : Option Str :=
  (judgeLines stdout).find?
    (fun l => containsSub ("Test Case ".data ++ (Nat.repr i).data ++ ": ".data) l)

/-- The number of `Accepted` results in a result list. -/
def countAccepted (rs : List CaseResult) : Nat :=
  rs.countP (fun r => r.status == "Accepted".data)

/-- A test case with its visibility flag cleared (statement auxiliary, used to
compare the grading of a hidden case with the grading of the same case made
visible). -/
def unhideTC (tc : TestCase) : TestCase := { tc with hidden := false }

/-- A problem with every test case made visible (statement auxiliary). -/
def unhideProblem (p : Problem) : Problem :=
  { p with testCases := p.testCases.map unhideTC }

/-! ## Backend dispatcher (`submitWithFallback`, server.ts:753-780) -/

/-- The outcome of one `fetch` to an endpoint: either an HTTP response arrived
(with its status code and the `token` field of the decoded body), or the fetch
rejected (the 8-second abort timeout fired or the connection failed). -/
inductive FetchOutcome where
  | response (status : Nat) (token : Str)
  | abort
deriving DecidableEq

/-- The errors `submitWithFallback` constructs or propagates.  The source
distinguishes them by the error message text: `Client Error: <n>`
(server.ts:769), `Server Error: <n>` (server.ts:770), the abort/network
rejection message, and the synthetic `All Judge0 instances failed.`
(server.ts:779). -/
inductive SubmitError where
  | clientError (status : Nat)
  | serverError (status : Nat)
  | netError
  | allFailed
deriving DecidableEq

/-- `response.ok`: the HTTP status is in the range 200-299. -/
def respOk (s : Nat) : Bool := 200 ≤ s && s < 300

/-- One loop iteration's attempt against a single endpoint
(server.ts:758-773): an ok response returns the token; a non-ok response
throws `Client Error` for 4xx and `Server Error` otherwise; a rejected fetch
surfaces as a network error. -/
def attemptResult (o : FetchOutcome) : Except SubmitError Str :=
  match o with
  | .abort => .error .netError
  | .response s tok =>
    if respOk s then .ok tok
    else if 400 ≤ s && s < 500 then .error (.clientError s)
    else .error (.serverError s)

/-- `err.message.includes("Client Error")` (server.ts:776): true exactly for
the client-class error. -/
def isClientError : SubmitError → Bool
  | .clientError _ => true
  | _ => false

/-- An endpoint outcome that lets the loop advance to the next endpoint:
the attempt fails with a non-client-class error. -/
def retriable (o : FetchOutcome) : Bool :=
  match attemptResult o with
  | .ok _ => false
  | .error e => !isClientError e

/-- The error an advancing attempt records in `lastError`. -/
def attemptError (o : FetchOutcome) : SubmitError :=
  match attemptResult o with
  | .ok _ => .allFailed
  | .error e => e

/-- The error surfaced when the loop exhausts the list: the last observed
error, or the synthetic `All Judge0 instances failed.` when none was observed
(server.ts:779). -/
def lastErrOf (eps : List (Str × FetchOutcome)) : SubmitError :=
  match eps.getLast? with
  | none => .allFailed
  | some p => attemptError p.2

/-- The `for` loop of `submitWithFallback` (server.ts:755-778), carrying
`lastError` and instrumented to also return the list of endpoints actually
attempted.  An ok response returns `{token, url}`; a caught error whose
message contains `Client Error` is rethrown at once; any other caught error
is stored in `lastError` and the loop advances. -/
def submitLoop :
    List (Str × FetchOutcome) → Option SubmitError →
    Except SubmitError (Str × Str) × List Str
  | [], lastError => (.error (lastError.getD .allFailed), [])
  | (url, o) :: rest, _lastError =>
    match attemptResult o with
    | .ok tok => (.ok (tok, url), [url])
    | .error e =>
      if isClientError e then (.error e, [url])
      else
        let r := submitLoop rest (some e)
        (r.1, url :: r.2)

/-- `submitWithFallback` (server.ts:753-780): try the configured endpoints in
order; return the `{token, url}` pair of the first successful submission. -/
def submitWithFallback (eps : List (Str × FetchOutcome)) :
    Except SubmitError (Str × Str) :=
  (submitLoop eps none).1

/-- The endpoints `submitWithFallback` actually contacts, in order. -/
def attemptedEndpoints (eps : List (Str × FetchOutcome)) : List Str :=
  (submitLoop eps none).2

/-! ## Polling worker (server.ts:914-1001, per-job step) -/

/-- The decoded fields of one Judge0 status response
(`{status.id, stdout, stderr, compile_output}`); the base64 transport encoding
is modelled away (the source decodes each field immediately), with `none` for
a null field. -/
structure PollData where
  statusId : Nat
  stdout : Option Str
  stderr : Option Str
  compile_output : Option Str
deriving DecidableEq

/-- The fields the polling worker writes back to the job record
(server.ts:964-966).  JS numbers are modelled as exact rationals. -/
structure JobUpdate where
  status : Str
  stdout : Str
  stderr : Str
  score : ℚ
deriving DecidableEq

/-- Decode an optional field to a string, `''` when absent
(`data.stdout ? Buffer.from(...) : ""`). -/
def optStr (o : Option Str) : Str := o.getD []

/-- `parseFloat(x.toFixed(2))` on a non-negative value: round to the nearest
2-decimal value, ties away from zero.  JS double arithmetic is modelled as
exact rational arithmetic. -/
def round2 (q : ℚ) : ℚ := (⌊q * 100 + 1 / 2⌋ : ℚ) / 100

/-- One job's poll transition (server.ts:940-962), as a pure function of the
decoded backend response and the (re-fetched) problem: `none` means the loop
`continue`s with no update (still running); otherwise the returned record is
written to the job.  Status id 6 is the compile-error branch (server.ts:947);
any other id above 2 decodes stdout/stderr and, when the problem is found,
grades and scores it (`parseFloat(((passedCount / len) * 100).toFixed(2))`,
server.ts:958).  The zero-test-case division (NaN in JS, flagged as an open
question in the spec) is modelled by the rational convention `q / 0 = 0`. -/
def pollStep (d : PollData) (prob : Option Problem) : Option JobUpdate :=
  if d.statusId ≤ 2 then none
  else if d.statusId = 6 then
    some { status := "error".data, stdout := optStr d.compile_output,
           stderr := [], score := 0 }
  else
    let stdoutRaw := optStr d.stdout
    let stderrS := optStr d.stderr
    match prob with
    | some p =>
      some { status := "completed".data, stdout := stdoutRaw, stderr := stderrS,
             score := round2
               (((parseJudge0Output stdoutRaw p).2 : ℚ) /
                 (p.testCases.length : ℚ) * 100) }
    | none =>
      some { status := "error".data, stdout := [], stderr := stderrS, score := 0 }

/-! ## Code wrapper (`generateRunner`, server.ts:583-734) -/

/-- Decimal rendering of a JS integer. -/
def intRepr (n : Int) : Str := (toString n).data

/-- JS string coercion of an atom (template-literal interpolation). -/
def atomToString : JAtom → Str
  | .num n => intRepr n
  | .str s => s
  | .bool b => if b then "true".data else "false".data

/-- `Array.prototype.join(sep)`. -/
def joinSep (sep : Str) : List Str → Str
  | [] => []
  | [s] => s
  | s :: t => s ++ sep ++ joinSep sep t

/-- Minimal model of `JSON.stringify` escaping inside string literals. -/
def jsonEscapeChar (c : Char) : Str :=
  if c = '"' then ['\\', '"']
  else if c = '\\' then ['\\', '\\']
  else if c = '\n' then ['\\', 'n']
  else if c = '\t' then ['\\', 't']
  else if c = '\r' then ['\\', 'r']
  else [c]

/-- `JSON.stringify` of an atom. -/
def jsonOfAtom : JAtom → Str
  | .num n => intRepr n
  | .str s => '"' :: (s.flatMap jsonEscapeChar) ++ ['"']
  | .bool b => if b then "true".data else "false".data

/-- `JSON.stringify` of a value. -/
def jsonOfJVal : JVal → Str
  | .atom a => jsonOfAtom a
  | .arr l => "[".data ++ joinSep ",".data (l.map jsonOfAtom) ++ "]".data

/-- `JSON.stringify` of a params object (insertion order). -/
def jsonOfParams (ps : List (Str × JVal)) : Str :=
  "\x7b".data ++
    joinSep ",".data
      (ps.map (fun kv => '"' :: (kv.1.flatMap jsonEscapeChar) ++ "\":".data ++ jsonOfJVal kv.2)) ++
  "\x7d".data

/-- `JSON.stringify(testCases.map(t => t.params))` (server.ts:593). -/
def jsonOfTestParams (tcs : List TestCase) : Str :=
  "[".data ++ joinSep ",".data (tcs.map (fun tc => jsonOfParams tc.params)) ++ "]".data

/-- `toJava` (server.ts:561-570): format one argument for the generated Java
call. -/
def toJava : JVal → Str
  | .arr [] => "new int[]\x7b\x7d".data
  | .arr (a :: rest) =>
    match a with
    | .str _ =>
      "new String[]\x7b".data ++
        joinSep ",".data ((a :: rest).map (fun e => '"' :: atomToString e ++ ['"'])) ++
      "\x7d".data
    | _ =>
      "new int[]\x7b".data ++ joinSep ",".data ((a :: rest).map atomToString) ++ "\x7d".data
  | .atom (.str s) => '"' :: s ++ ['"']
  | .atom (.bool b) => if b then "true".data else "false".data
  | .atom (.num n) => intRepr n

/-- `toCpp` (server.ts:573-580): format one argument for the generated C++
call. -/
def toCpp : JVal → Str
  | .arr l => "\x7b".data ++ joinSep ",".data (l.map atomToString) ++ "\x7d".data
  | .atom (.str s) => '"' :: s ++ ['"']
  | .atom (.bool b) => if b then "true".data else "false".data
  | .atom (.num n) => intRepr n

/-- Consume a literal prefix, or fail. -/
def dropLit : Str → Str → Option Str
  | [], s => some s
  | _ :: _, [] => none
  | p :: ps, c :: cs => if p = c then dropLit ps cs else none

/-- Consume one-or-more JS whitespace characters (`\s+`), greedily. -/
def dropWs1 : Str → Option Str
  | [] => none
  | c :: t => if jsWhitespace c then some (t.dropWhile jsWhitespace) else none

/-- Match the regex `public\s+class\s+Solution` at the head of the string,
returning the remainder after the match. -/
def matchPCS (s : Str) : Option Str :=
  (dropLit "public".data s).bind fun r1 =>
  (dropWs1 r1).bind fun r2 =>
  (dropLit "class".data r2).bind fun r3 =>
  (dropWs1 r3).bind fun r4 =>
  dropLit "Solution".data r4

/-- `userCode.replace(/public\s+class\s+Solution/, 'class Solution')`
(server.ts:645): rewrite the first match only. -/
def replacePCS : Str → Str
  | [] => []
  | c :: t =>
    match matchPCS (c :: t) with
    | some rem => "class Solution".data ++ rem
    | none => c :: replacePCS t

/-- Everything the JavaScript/TypeScript harness places after the user code
(server.ts:592-603). -/
def jsTail (tcs : List TestCase) (funcName : Str) : Str :=
  "\n\n// --- JUDGE SYSTEM ---\nconst testCases = ".data ++ jsonOfTestParams tcs ++
  ";\ntestCases.forEach((tc, i) => \x7b\n    try \x7b\n        const result = ".data ++
  funcName ++
  "(...Object.values(tc));\n        const resStr = Array.isArray(result) ? JSON.stringify(result) : result;\n        console.log(`__JUDGE__ Test Case $\x7bi + 1\x7d: $\x7bresStr\x7d`);\n    \x7d catch (e) \x7b\n        console.log(`__JUDGE__ Test Case $\x7bi + 1\x7d: ERROR_RUNTIME`);\n    \x7d\n\x7d);\n".data

/-- The text the JavaScript/TypeScript harness places before the user code. -/
def jsPre : Str := "\n".data

/-- The generated JavaScript/TypeScript harness (server.ts:589-603). -/
def jsHarness (tcs : List TestCase) (funcName userCode : Str) : Str :=
  jsPre ++ userCode ++ jsTail tcs funcName

/-- Everything the Python harness places after the user code
(server.ts:615-639). -/
def pyTail (tcs : List TestCase) (funcName : Str) : Str :=
  "\n\n# Judge System\nif __name__ == \"__main__\":\n    try:\n        solution = Solution()\n        # Parse test cases safely using JSON to handle arrays properly\n        test_cases_json = '".data ++
  jsonOfTestParams tcs ++
  "'\n        test_cases = json.loads(test_cases_json)\n        \n        for i, tc in enumerate(test_cases):\n            try:\n                args = list(tc.values())\n                result = solution.".data ++
  funcName ++
  "(*args)\n                \n                # Format output for JS Parser\n                # We simply print the result string. The JS parser removes spaces.\n                # Use json.dumps to ensure lists are formatted as [1, 2] not [1,2] (standardize)\n                print(f\"__JUDGE__ Test Case \x7bi+1\x7d: \x7bjson.dumps(result)\x7d\")\n                \n            except Exception as e:\n                print(f\"__JUDGE__ Test Case \x7bi+1\x7d: ERROR_RUNTIME\")\n                # Print error to stderr so it doesn't mess up parsing but visible in debug\n                sys.stderr.write(f\"TestCase \x7bi+1\x7d Error: \x7bstr(e)\x7d\\n\")\n                \n    except Exception as e:\n        sys.stderr.write(f\"Critical Runner Error: \x7bstr(e)\x7d\\n\")\n".data

/-- The text the Python harness places before the user code. -/
def pyPre : Str := "\nimport sys\nimport json\n\n# User Code\n".data

/-- The generated Python harness (server.ts:608-640). -/
def pyHarness (tcs : List TestCase) (funcName userCode : Str) : Str :=
  pyPre ++ userCode ++ pyTail tcs funcName

/-- One generated Java per-case call (the `map` body at server.ts:647-660). -/
def javaCall (funcName : Str) (i : Nat) (tc : TestCase) : Str :=
  "\n            try \x7b\n                Object res = sol.".data ++ funcName ++ "(".data ++
  joinSep ", ".data (tc.params.map (fun kv => toJava kv.2)) ++
  ");\n                System.out.print(\"__JUDGE__ Test Case ".data ++
  (Nat.repr (i + 1)).data ++
  ": \");\n                if (res instanceof int[]) System.out.println(java.util.Arrays.toString((int[])res).replaceAll(\" \", \"\"));\n                else if (res instanceof String[]) System.out.println(java.util.Arrays.toString((String[])res));\n                else System.out.println(res);\n            \x7d catch (Exception e) \x7b\n                System.out.println(\"__JUDGE__ Test Case ".data ++
  (Nat.repr (i + 1)).data ++
  ": ERROR_RUNTIME\");\n            \x7d\n            ".data

/-- Everything the Java harness places after the (rewritten) user code
(server.ts:668-674). -/
def javaTail (tcs : List TestCase) (funcName : Str) : Str :=
  "\n\npublic class Main \x7b\n    public static void main(String[] args) \x7b\n        Solution sol = new Solution();\n        ".data ++
  joinSep "\n".data (tcs.enum.map (fun q => javaCall funcName q.1 q.2)) ++
  "\n    \x7d\n\x7d\n".data

/-- The text the Java harness places before the (rewritten) user code. -/
def javaPre : Str := "\nimport java.util.*;\nimport java.io.*;\n\n".data

/-- The generated Java harness (server.ts:644-674); the user code is embedded
after the `public class Solution` rewrite. -/
def javaHarness (tcs : List TestCase) (funcName userCode : Str) : Str :=
  javaPre ++ replacePCS userCode ++ javaTail tcs funcName

/-- One generated C++ per-case call (the `map` body at server.ts:679-691). -/
def cppCall (funcName : Str) (i : Nat) (tc : TestCase) : Str :=
  "\n            try \x7b\n                auto res = sol.".data ++ funcName ++ "(".data ++
  joinSep ", ".data (tc.params.map (fun kv => toCpp kv.2)) ++
  ");\n                cout << \"__JUDGE__ Test Case ".data ++
  (Nat.repr (i + 1)).data ++
  ": \";\n                printResult(res);\n                cout << endl;\n            \x7d catch (...) \x7b\n                cout << \"__JUDGE__ Test Case ".data ++
  (Nat.repr (i + 1)).data ++
  ": ERROR_RUNTIME\" << endl;\n            \x7d\n            ".data

/-- Everything the C++ harness places after the user code
(server.ts:724-728). -/
def cppTail (tcs : List TestCase) (funcName : Str) : Str :=
  "\n\nint main() \x7b\n    Solution sol;\n    ".data ++
  joinSep "\n".data (tcs.enum.map (fun q => cppCall funcName q.1 q.2)) ++
  "\n    return 0;\n\x7d\n".data

/-- The text the C++ harness places before the user code. -/
def cppPre : Str :=
  "\n#include <iostream>\n#include <vector>\n#include <string>\n#include <algorithm>\n#include <map>\nusing namespace std;\n\n// Helper to print vectors\ntemplate <typename T>\nvoid printResult(const vector<T>& v) \x7b\n    cout << \"[\";\n    for (size_t i = 0; i < v.size(); ++i) \x7b\n        cout << v[i] << (i < v.size() - 1 ? \",\" : \"\");\n    \x7d\n    cout << \"]\";\n\x7d\n\n// Helper to print basic types\ntemplate <typename T>\nvoid printResult(T val) \x7b\n    cout << val;\n\x7d\n\n// Helper for boolean\nvoid printResult(bool val) \x7b\n    cout << (val ? \"true\" : \"false\");\n\x7d\n\n".data

/-- The generated C++ harness (server.ts:678-729). -/
def cppHarness (tcs : List TestCase) (funcName userCode : Str) : Str :=
  cppPre ++ userCode ++ cppTail tcs funcName

/-- `generateRunner` (server.ts:583-734): dispatch on the language and build
the full program text.  A language outside the four handled branches (notably
`c`, which is in the supported-language map) falls through to the raw user
code (server.ts:733). -/
def generateRunner (language : Str) (problem : Problem) (userCode : Str) : Str :=
  let testCases := problem.testCases
  let funcName := if problem.functionName = [] then "solve".data else problem.functionName
  if language = "javascript".data ∨ language = "typescript".data then
    jsHarness testCases funcName userCode
  else if language = "python".data then
    pyHarness testCases funcName userCode
  else if language = "java".data then
    javaHarness testCases funcName userCode
  else if language = "cpp".data then
    cppHarness testCases funcName userCode
  else userCode

/-- The marker line for 1-based ordinal `i` carrying a serialized result. -/
def markerLine (i : Nat) (s : Str) : Str :=
  "__JUDGE__ Test Case ".data ++ (Nat.repr i).data ++ ": ".data ++ s

/-- The line a harness iteration prints: the serialized result on success,
`ERROR_RUNTIME` when invoking the entry point threw. -/
def harnessResult (r : Except Unit Str) : Str :=
  match r with
  | .ok s => s
  | .error _ => "ERROR_RUNTIME".data

/-- The per-case loop every generated harness shares (e.g. the
`testCases.forEach` with a per-iteration try/catch at server.ts:594-602):
iteration `k` invokes the entry point on case `k` (modelled as an oracle
returning a serialized result or an exception) and prints one marker line for
ordinal `k + 1`. -/
def runHarnessModel (entry : Nat → Except Unit Str) (n : Nat) : List Str :=
  (List.range n).map (fun k => markerLine (k + 1) (harnessResult (entry k)))

/-! ## Concrete inputs used by counterexamples and witnesses -/

/-- A problem with the given test cases (fixed id, title, entry point). -/
def mkProblem (tcs : List TestCase) : Problem :=
  { id := "p".data, title := "t".data, testCases := tcs,
    functionName := "solve".data,
    runner_code_java := none, runner_code_cpp := none, runner_code_c := none }

/-- A test case with no parameters. -/
def mkTC (input expected : Str) (hidden : Bool) : TestCase :=
  { input := input, expected := expected, hidden := hidden, params := [] }

/-- An expected-output string wrapped in curly double quotes. -/
def exC1Expected : Str := [Char.ofNat 0x201c, '0', Char.ofNat 0x201d]

/-- One-case problem whose expected output carries curly quotes. -/
def exC1Problem : Problem := mkProblem [mkTC "x".data exC1Expected false]

/-- Raw stdout whose case-1 marker carries the bare result `0`. -/
def exC1Stdout : Str := "__JUDGE__ Test Case 1: 0".data

/-- One-case problem whose expected output is quoted with straight quotes and
an inner space, as in the spec's normalization example. -/
def exC1WProblem : Problem := mkProblem [mkTC "x".data "\"[0, 1]\"".data false]

/-- Raw stdout whose case-1 marker carries `[0,1]`. -/
def exC1WStdout : Str := "__JUDGE__ Test Case 1: [0,1]".data

/-- The marker line of `exC1WStdout`. -/
def exC1WLine : Str := "__JUDGE__ Test Case 1: [0,1]".data

/-- The result object the parser produces for `exC1WStdout`. -/
def exC1WResult : CaseResult :=
  { status := "Accepted".data, input := "x".data, expected := "\"[0, 1]\"".data,
    actual := "[0,1]".data, params := [] }

/-- Two-case problem with expected output `ok` for both cases. -/
def exC2Problem : Problem :=
  mkProblem [mkTC "a".data "ok".data false, mkTC "b".data "ok".data false]

/-- Raw stdout whose single marker line embeds the text `Test Case 2: ` inside
the case-1 payload. -/
def exC2Stdout : Str := "__JUDGE__ Test Case 1: ok Test Case 2: ok".data

/-- Two-case problem used by the C2 amended witness. -/
def exC2WProblem : Problem :=
  mkProblem [mkTC "a".data "1".data false, mkTC "b".data "2".data false]

/-- Raw stdout with a marker for case 1 only. -/
def exC2WStdout : Str := "__JUDGE__ Test Case 1:  1 ".data

/-- Three-case problem used by the C5 witness. -/
def exC5Problem : Problem :=
  mkProblem [mkTC "a".data "1".data false, mkTC "b".data "2".data false,
             mkTC "c".data "3".data false]

/-- Raw stdout that passes exactly one of the three cases. -/
def exC5Stdout : Str :=
  "__JUDGE__ Test Case 1: 1\n__JUDGE__ Test Case 2: 9\n__JUDGE__ Test Case 3: 9".data

/-- Two-case problem whose second case is hidden. -/
def exC7Problem : Problem :=
  mkProblem [mkTC "a".data "1".data false,
             { input := "secret in".data, expected := "2".data, hidden := true,
               params := [("k".data, JVal.atom (JAtom.num 5))] }]

/-- Raw stdout passing both cases of `exC7Problem`. -/
def exC7Stdout : Str :=
  "__JUDGE__ Test Case 1: 1\n__JUDGE__ Test Case 2: 2".data

/-- Two-case problem whose first case is hidden, used by the C10 witness. -/
def exC10Problem : Problem :=
  mkProblem [{ input := "hush".data, expected := "7".data, hidden := true,
               params := [("n".data, JVal.atom (JAtom.num 1))] },
             mkTC "b".data "8".data false]

/-- Raw stdout for `exC10Problem`: case 1 wrong, case 2 missing. -/
def exC10Stdout : Str := "__JUDGE__ Test Case 1: 9".data

/-- One-case problem used by the C9 witness. -/
def exC9Problem : Problem := mkProblem [mkTC "a".data "5".data false]

/-- Raw stdout passing the single case of `exC9Problem`. -/
def exC9Stdout : Str := "__JUDGE__ Test Case 1: 5".data

/-- The user code for the C6 counterexample: a public Solution class, which
the Java branch rewrites. -/
def exC6Code : Str := "public class Solution".data

/-- A problem with no test cases, keeping the generated Java text small. -/
def exC6Problem : Problem := mkProblem []

/-- The result object the parser produces for the hidden second case of
`exC7Problem` on `exC7Stdout`. -/
def exC7R : CaseResult :=
  { status := "Accepted".data, input := "Hidden".data, expected := "2".data,
    actual := "2".data, params := [] }

/-- The result object the parser produces for the hidden first case of
`exC10Problem` on `exC10Stdout`. -/
def exC10R : CaseResult :=
  { status := "Wrong Answer".data, input := "Hidden".data, expected := "7".data,
    actual := "9".data, params := [] }

/-- The result object the parser produces for the same case once the problem
is un-hidden. -/
def exC10Rv : CaseResult :=
  { status := "Wrong Answer".data, input := "hush".data, expected := "7".data,
    actual := "9".data, params := [("n".data, JVal.atom (JAtom.num 1))] }

/-- The result object the parser produces for the marker-less second case of
`exC2WProblem` on `exC2WStdout`. -/
def exC2WR1 : CaseResult :=
  { status := "Runtime Error".data, input := "b".data, expected := "2".data,
    actual := "N/A".data, params := [] }

/-- An entry-point oracle whose second invocation throws. -/
def exC6Entry : Nat → Except Unit Str :=
  fun k => if k = 0 then .ok "5".data else .error ()

/-- A user code text used by the C6 witness for the Java branch. -/
def exC6WCode : Str := "public class Solution \x7b \x7d".data

/-! ## Parser lemmas -/

theorem gradeCase_expected (jls : List Str) (i : Nat) (tc : TestCase) :
    (gradeCase jls i tc).1.expected = tc.expected := by
  simp only [gradeCase]
  split
  · split <;> rfl
  · rfl

theorem gradeCase_status (jls : List Str) (i : Nat) (tc : TestCase) :
    (gradeCase jls i tc).1.status = "Accepted".data ∨
    (gradeCase jls i tc).1.status = "Wrong Answer".data ∨
    (gradeCase jls i tc).1.status = "Runtime Error".data := by
  simp only [gradeCase]
  split
  · split
    · exact Or.inl rfl
    · exact Or.inr (Or.inl rfl)
  · exact Or.inr (Or.inr rfl)

theorem gradeCase_delta (jls : List Str) (i : Nat) (tc : TestCase) :
    (gradeCase jls i tc).2 =
      if (gradeCase jls i tc).1.status == "Accepted".data then 1 else 0 := by
  simp only [gradeCase]
  split
  · split <;> rfl
  · rfl

theorem gradeCase_hidden (jls : List Str) (i : Nat) (tc : TestCase)
    (h : tc.hidden = true) :
    (gradeCase jls i tc).1.input = "Hidden".data ∧ (gradeCase jls i tc).1.params = [] := by
  simp only [gradeCase, h]
  split
  · split <;> exact ⟨rfl, rfl⟩
  · exact ⟨rfl, rfl⟩

theorem gradeCase_unhide (jls : List Str) (i : Nat) (tc : TestCase) :
    (gradeCase jls i (unhideTC tc)).1.status = (gradeCase jls i tc).1.status ∧
    (gradeCase jls i (unhideTC tc)).1.actual = (gradeCase jls i tc).1.actual ∧
    (gradeCase jls i (unhideTC tc)).1.expected = (gradeCase jls i tc).1.expected ∧
    (gradeCase jls i (unhideTC tc)).2 = (gradeCase jls i tc).2 ∧
    (gradeCase jls i (unhideTC tc)).1.input = tc.input ∧
    (gradeCase jls i (unhideTC tc)).1.params = tc.params := by
  simp only [gradeCase, unhideTC]
  split
  · split <;> simp
  · simp

theorem gradeCases_length (jls : List Str) (tcs : List TestCase) (i : Nat) :
    (gradeCases jls i tcs).1.length = tcs.length := by
  induction tcs generalizing i with
  | nil => rfl
  | cons tc rest ih => simp [gradeCases, ih]

theorem gradeCases_getElem? (jls : List Str) (tcs : List TestCase) (i k : Nat) :
    (gradeCases jls i tcs).1[k]? =
      (tcs[k]?).map (fun tc => (gradeCase jls (i + k) tc).1) := by
  induction tcs generalizing i k with
  | nil => simp [gradeCases]
  | cons tc rest ih =>
    cases k with
    | zero => simp [gradeCases]
    | succ k =>
      have hidx : i + (k + 1) = (i + 1) + k := by omega
      simp only [gradeCases, List.getElem?_cons_succ, hidx]
      exact ih (i + 1) k

theorem gradeCases_snd_eq_count (jls : List Str) (tcs : List TestCase) (i : Nat) :
    (gradeCases jls i tcs).2 = countAccepted (gradeCases jls i tcs).1 := by
  induction tcs generalizing i with
  | nil => rfl
  | cons tc rest ih =>
    simp only [gradeCases]
    rw [gradeCase_delta jls i tc, ih (i + 1)]
    simp only [countAccepted, List.countP_cons]
    omega

theorem gradeCases_status_mem (jls : List Str) (tcs : List TestCase) (i : Nat) :
    ∀ r ∈ (gradeCases jls i tcs).1,
      r.status = "Accepted".data ∨ r.status = "Wrong Answer".data ∨
      r.status = "Runtime Error".data := by
  induction tcs generalizing i with
  | nil => intro r hr; simp [gradeCases] at hr
  | cons tc rest ih =>
    intro r hr
    simp only [gradeCases, List.mem_cons] at hr
    rcases hr with h | h
    · exact h ▸ gradeCase_status jls i tc
    · exact ih (i + 1) r h

theorem gradeCases_unhide_snd (jls : List Str) (tcs : List TestCase) (i : Nat) :
    (gradeCases jls i (tcs.map unhideTC)).2 = (gradeCases jls i tcs).2 := by
  induction tcs generalizing i with
  | nil => rfl
  | cons tc rest ih =>
    simp only [List.map_cons, gradeCases]
    rw [(gradeCase_unhide jls i tc).2.2.2.1, ih (i + 1)]

theorem parse_getElem? (stdout : Str) (p : Problem) (k : Nat) :
    (parseJudge0Output stdout p).1[k]? =
      (p.testCases[k]?).map (fun tc => (gradeCase (judgeLines stdout) k tc).1) := by
  have h := gradeCases_getElem? (judgeLines stdout) p.testCases 0 k
  simpa [parseJudge0Output] using h

/-- C9: for every raw stdout and every problem the parser returns exactly one
result per test case, in test-case order (the `k`-th result carries the `k`-th
case's expected string), every status is one of `Accepted`, `Wrong Answer`,
`Runtime Error` (never the initial `Pending`), and `passedCount` is the number
of `Accepted` results, hence at most the number of cases. -/
theorem c9_parser_invariants (stdout : Str) (p : Problem) :
    (parseJudge0Output stdout p).1.length = p.testCases.length ∧
    (∀ r ∈ (parseJudge0Output stdout p).1,
      r.status = "Accepted".data ∨ r.status = "Wrong Answer".data ∨
      r.status = "Runtime Error".data) ∧
    (∀ (k : Nat) (tc : TestCase) (r : CaseResult), p.testCases[k]? = some tc →
      (parseJudge0Output stdout p).1[k]? = some r → r.expected = tc.expected) ∧
    (parseJudge0Output stdout p).2 = countAccepted (parseJudge0Output stdout p).1 ∧
    (parseJudge0Output stdout p).2 ≤ p.testCases.length := by
  refine ⟨gradeCases_length _ _ _, gradeCases_status_mem _ _ _, ?_,
    gradeCases_snd_eq_count _ _ _, ?_⟩
  · intro k tc r htc hr
    rw [parse_getElem?, htc] at hr
    simp only [Option.map_some'] at hr
    rw [← Option.some.inj hr]
    exact gradeCase_expected _ _ _
  · calc (parseJudge0Output stdout p).2
        = countAccepted (parseJudge0Output stdout p).1 := gradeCases_snd_eq_count _ _ _
      _ ≤ (parseJudge0Output stdout p).1.length := List.countP_le_length _
      _ = p.testCases.length := gradeCases_length _ _ _

/-- C9 witness at a concrete stdout and problem. -/
theorem c9_parser_invariants_witness :
    (parseJudge0Output exC9Stdout exC9Problem).1.length = exC9Problem.testCases.length ∧
    (parseJudge0Output exC9Stdout exC9Problem).2 =
      countAccepted (parseJudge0Output exC9Stdout exC9Problem).1 :=
  ⟨(c9_parser_invariants exC9Stdout exC9Problem).1,
   (c9_parser_invariants exC9Stdout exC9Problem).2.2.2.1⟩

/-- C7: a hidden test case's result carries the fixed placeholders in its
`input` and `params` fields, while the case is graded exactly as the same
case made visible: its status matches the un-hidden parse and the total
`passedCount` is unchanged. -/
theorem c7_hidden_redaction (stdout : Str) (p : Problem) (k : Nat) (tc : TestCase)
    (r : CaseResult) (htc : p.testCases[k]? = some tc) (hh : tc.hidden = true)
    (hr : (parseJudge0Output stdout p).1[k]? = some r) :
    r.input = "Hidden".data ∧ r.params = [] ∧
    (∀ r' : CaseResult, (parseJudge0Output stdout (unhideProblem p)).1[k]? = some r' →
      r.status = r'.status) ∧
    (parseJudge0Output stdout p).2 = (parseJudge0Output stdout (unhideProblem p)).2 := by
  have hreq : r = (gradeCase (judgeLines stdout) k tc).1 := by
    rw [parse_getElem?, htc] at hr
    simp only [Option.map_some'] at hr
    exact (Option.some.inj hr).symm
  refine ⟨hreq ▸ (gradeCase_hidden _ _ _ hh).1, hreq ▸ (gradeCase_hidden _ _ _ hh).2, ?_, ?_⟩
  · intro r' hr'
    have hmap : (unhideProblem p).testCases[k]? = some (unhideTC tc) := by
      show (p.testCases.map unhideTC)[k]? = some (unhideTC tc)
      rw [List.getElem?_map, htc]
      rfl
    have hreq' : r' = (gradeCase (judgeLines stdout) k (unhideTC tc)).1 := by
      rw [parse_getElem?, hmap] at hr'
      simp only [Option.map_some'] at hr'
      exact (Option.some.inj hr').symm
    rw [hreq, hreq', (gradeCase_unhide (judgeLines stdout) k tc).1]
  · show (gradeCases (judgeLines stdout) 0 p.testCases).2 =
      (gradeCases (judgeLines stdout) 0 (p.testCases.map unhideTC)).2
    exact (gradeCases_unhide_snd (judgeLines stdout) p.testCases 0).symm

/-- C7 witness: the hidden second case of a concrete problem. -/
theorem c7_hidden_redaction_witness :
    exC7R.input = "Hidden".data ∧ exC7R.params = [] ∧
    (parseJudge0Output exC7Stdout exC7Problem).2 =
      (parseJudge0Output exC7Stdout (unhideProblem exC7Problem)).2 := by
  have h := c7_hidden_redaction exC7Stdout exC7Problem 1
    { input := "secret in".data, expected := "2".data, hidden := true,
      params := [("k".data, JVal.atom (JAtom.num 5))] }
    exC7R (by decide) (by decide) (by decide)
  exact ⟨h.1, h.2.1, h.2.2.2⟩

/-- C10: a hidden test case's result still carries the case's literal
expected string, and its `actual` and `status` agree with the un-hidden
parse of the same stdout — only the `input` and `params` fields are replaced
by the placeholders. -/
theorem c10_hidden_expected_visible (stdout : Str) (p : Problem) (k : Nat)
    (tc : TestCase) (r r' : CaseResult) (htc : p.testCases[k]? = some tc)
    (hh : tc.hidden = true)
    (hr : (parseJudge0Output stdout p).1[k]? = some r)
    (hr' : (parseJudge0Output stdout (unhideProblem p)).1[k]? = some r') :
    r.expected = tc.expected ∧ r.actual = r'.actual ∧ r.status = r'.status ∧
    r.input = "Hidden".data ∧ r.params = [] ∧
    r'.input = tc.input ∧ r'.params = tc.params := by
  have hreq : r = (gradeCase (judgeLines stdout) k tc).1 := by
    rw [parse_getElem?, htc] at hr
    simp only [Option.map_some'] at hr
    exact (Option.some.inj hr).symm
  have hmap : (unhideProblem p).testCases[k]? = some (unhideTC tc) := by
    show (p.testCases.map unhideTC)[k]? = some (unhideTC tc)
    rw [List.getElem?_map, htc]
    rfl
  have hreq' : r' = (gradeCase (judgeLines stdout) k (unhideTC tc)).1 := by
    rw [parse_getElem?, hmap] at hr'
    simp only [Option.map_some'] at hr'
    exact (Option.some.inj hr').symm
  have hu := gradeCase_unhide (judgeLines stdout) k tc
  refine ⟨hreq ▸ gradeCase_expected _ _ _, ?_, ?_, hreq ▸ (gradeCase_hidden _ _ _ hh).1,
    hreq ▸ (gradeCase_hidden _ _ _ hh).2, hreq' ▸ hu.2.2.2.2.1, hreq' ▸ hu.2.2.2.2.2⟩
  · rw [hreq, hreq', hu.2.1]
  · rw [hreq, hreq', hu.1]

/-- C10 witness: the hidden first case of a concrete problem. -/
theorem c10_hidden_expected_visible_witness :
    exC10R.expected = "7".data ∧ exC10R.actual = exC10Rv.actual ∧
    exC10R.status = exC10Rv.status ∧ exC10R.input = "Hidden".data ∧
    exC10Rv.input = "hush".data := by
  have h := c10_hidden_expected_visible exC10Stdout exC10Problem 0
    { input := "hush".data, expected := "7".data, hidden := true,
      params := [("n".data, JVal.atom (JAtom.num 1))] }
    exC10R exC10Rv (by decide) (by decide) (by decide) (by decide)
  exact ⟨h.1, h.2.1, h.2.2.1, h.2.2.2.1, h.2.2.2.2.2.1⟩

theorem gradeCase_found (jls : List Str) (i : Nat) (tc : TestCase) (line : Str)
    (hl : jls.find? (fun l => containsSub (searchStrFor i) l) = some line) :
    gradeCase jls i tc =
      (if normalize tc.expected =
          normalize (trimChars (removeFirst (searchStrFor i) line)) then
        ({ status := "Accepted".data,
           input := if tc.hidden then "Hidden".data else tc.input,
           expected := tc.expected,
           actual := trimChars (removeFirst (searchStrFor i) line),
           params := if tc.hidden then [] else tc.params }, 1)
      else
        ({ status := "Wrong Answer".data,
           input := if tc.hidden then "Hidden".data else tc.input,
           expected := tc.expected,
           actual := trimChars (removeFirst (searchStrFor i) line),
           params := if tc.hidden then [] else tc.params }, 0)) := by
  simp only [gradeCase, hl]

theorem gradeCase_notfound (jls : List Str) (i : Nat) (tc : TestCase)
    (hl : jls.find? (fun l => containsSub (searchStrFor i) l) = none) :
    gradeCase jls i tc =
      ({ status := "Runtime Error".data,
         input := if tc.hidden then "Hidden".data else tc.input,
         expected := tc.expected, actual := "N/A".data,
         params := if tc.hidden then [] else tc.params }, 0) := by
  simp only [gradeCase, hl]

/-- C1 counterexample: the expected string is wrapped in curly double quotes;
under the normalization the claim describes (which strips curly quotes too)
expected and actual agree, yet the code grades the case `Wrong Answer`,
because the source's `/['"]/g` strips only straight quotes. -/
theorem c1_counterexample :
    specNormalize exC1Expected = specNormalize "0".data ∧
    ((parseJudge0Output exC1Stdout exC1Problem).1[0]?).map CaseResult.status =
      some "Wrong Answer".data ∧
    ((parseJudge0Output exC1Stdout exC1Problem).1[0]?).map CaseResult.actual =
      some "0".data := by
  decide

/-- C1 amended: for every test case whose marker line is found, the grader
compares expected and actual under `normalize` — strip all whitespace, strip
the straight quote characters `'` and `"` (curly quotes are kept), lower-case
the remainder — and grades `Accepted` exactly when the normalized strings are
equal, `Wrong Answer` otherwise. -/
theorem c1_normalization_amended (stdout : Str) (p : Problem) (k : Nat)
    (r : CaseResult) (line : Str)
    (hr : (parseJudge0Output stdout p).1[k]? = some r)
    (hl : (judgeLines stdout).find? (fun l => containsSub (searchStrFor k) l) = some line) :
    (r.status = "Accepted".data ↔ normalize r.expected = normalize r.actual) ∧
    (r.status = "Wrong Answer".data ↔ ¬ normalize r.expected = normalize r.actual) := by
  rw [parse_getElem?] at hr
  obtain ⟨tc, htc, hmap⟩ := Option.map_eq_some'.mp hr
  have hreq : r = (gradeCase (judgeLines stdout) k tc).1 := hmap.symm
  rw [gradeCase_found (judgeLines stdout) k tc line hl] at hreq
  by_cases hn : normalize tc.expected =
      normalize (trimChars (removeFirst (searchStrFor k) line))
  · rw [if_pos hn] at hreq
    subst hreq
    refine ⟨⟨fun _ => hn, fun _ => rfl⟩, ⟨?_, ?_⟩⟩
    · intro hfalse
      have hne : ¬ ("Accepted".data : Str) = "Wrong Answer".data := by decide
      exact absurd hfalse hne
    · intro hcon
      exact absurd hn hcon
  · rw [if_neg hn] at hreq
    subst hreq
    refine ⟨⟨?_, ?_⟩, ⟨fun _ => hn, fun _ => rfl⟩⟩
    · intro hfalse
      have hne : ¬ ("Wrong Answer".data : Str) = "Accepted".data := by decide
      exact absurd hfalse hne
    · intro hcon
      exact absurd hcon hn

/-- C1 amended witness: the spec's own example — expected `"[0, 1]"` (straight
quotes, inner space) against actual `[0,1]` — is `Accepted`. -/
theorem c1_normalization_amended_witness :
    exC1WResult.status = "Accepted".data ↔
      normalize exC1WResult.expected = normalize exC1WResult.actual :=
  (c1_normalization_amended exC1WStdout exC1WProblem 0 exC1WResult exC1WLine
    (by decide) (by decide)).1

/-- C2 counterexample: the only marker line contains the literal substring
`Test Case 2: ` (inside the case-1 payload), so the locator the claim
describes finds it and the suffix after that substring is `ok`, equal to the
expected output; yet the code grades case 2 `Runtime Error`, because its
search string is `__JUDGE__ Test Case 2: `, which the line does not contain. -/
theorem c2_counterexample :
    (specLocateLine exC2Stdout 2).isSome = true ∧
    (specLocateLine exC2Stdout 2).map (suffixAfterFirst ("Test Case 2: ".data)) =
      some (some "ok".data) ∧
    ((parseJudge0Output exC2Stdout exC2Problem).1[1]?).map CaseResult.status =
      some "Runtime Error".data := by
  decide

/-- C2 amended: the parser locates the case at 0-based index `k` by searching
the extracted marker lines for the first one containing the literal substring
`__JUDGE__ Test Case <k+1>: ` (the marker prefix is part of the searched
substring); if found, the actual result is that line with the first occurrence
of the substring removed and surrounding whitespace trimmed, and the case is
not graded `Runtime Error`; if no such line exists the case is graded
`Runtime Error` with the placeholder actual `N/A`. -/
theorem c2_locator_amended (stdout : Str) (p : Problem) (k : Nat) (r : CaseResult)
    (hr : (parseJudge0Output stdout p).1[k]? = some r) :
    (∀ line : Str,
      (judgeLines stdout).find? (fun l => containsSub (searchStrFor k) l) = some line →
      r.actual = trimChars (removeFirst (searchStrFor k) line) ∧
      ¬ r.status = "Runtime Error".data) ∧
    ((judgeLines stdout).find? (fun l => containsSub (searchStrFor k) l) = none →
      r.status = "Runtime Error".data ∧ r.actual = "N/A".data) := by
  rw [parse_getElem?] at hr
  obtain ⟨tc, htc, hmap⟩ := Option.map_eq_some'.mp hr
  have hreq : r = (gradeCase (judgeLines stdout) k tc).1 := hmap.symm
  constructor
  · intro line hl
    rw [gradeCase_found (judgeLines stdout) k tc line hl] at hreq
    by_cases hn : normalize tc.expected =
        normalize (trimChars (removeFirst (searchStrFor k) line))
    · rw [if_pos hn] at hreq
      subst hreq
      refine ⟨rfl, ?_⟩
      intro hfalse
      have hne : ¬ ("Accepted".data : Str) = "Runtime Error".data := by decide
      exact absurd hfalse hne
    · rw [if_neg hn] at hreq
      subst hreq
      refine ⟨rfl, ?_⟩
      intro hfalse
      have hne : ¬ ("Wrong Answer".data : Str) = "Runtime Error".data := by decide
      exact absurd hfalse hne
  · intro hl
    rw [gradeCase_notfound (judgeLines stdout) k tc hl] at hreq
    subst hreq
    exact ⟨rfl, rfl⟩

/-- C2 amended witness: a concrete stdout with a marker for case 1 only —
case 2 is graded `Runtime Error` with actual `N/A`. -/
theorem c2_locator_amended_witness :
    exC2WR1.status = "Runtime Error".data ∧ exC2WR1.actual = "N/A".data :=
  (c2_locator_amended exC2WStdout exC2WProblem 1 exC2WR1 (by decide)).2 (by decide)

/-! ## Dispatcher lemmas -/

theorem retriable_attempt (o : FetchOutcome) (h : retriable o = true) :
    ∃ e : SubmitError, attemptResult o = .error e ∧ isClientError e = false := by
  cases ha : attemptResult o with
  | ok tok =>
    exfalso
    unfold retriable at h
    rw [ha] at h
    simp at h
  | error e =>
    refine ⟨e, rfl, ?_⟩
    unfold retriable at h
    rw [ha] at h
    simpa using h

theorem submitLoop_client (pre : List (Str × FetchOutcome)) (url : Str) (s : Nat)
    (tok : Str) (rest : List (Str × FetchOutcome))
    (hpre : ∀ q ∈ pre, retriable q.2 = true) (h4 : 400 ≤ s) (h5 : s < 500) :
    ∀ lastError : Option SubmitError,
      submitLoop (pre ++ (url, .response s tok) :: rest) lastError =
        (.error (.clientError s), pre.map Prod.fst ++ [url]) := by
  induction pre with
  | nil =>
    intro lastError
    have hok : respOk s = false := by
      simp only [respOk, Bool.and_eq_false_iff, decide_eq_false_iff_not]
      omega
    have hcl : (400 ≤ s && s < 500) = true := by
      simp only [Bool.and_eq_true, decide_eq_true_eq]
      omega
    have ha : attemptResult (.response s tok) = .error (.clientError s) := by
      simp [attemptResult, hok, hcl]
    simp [submitLoop, ha, isClientError]
  | cons q pre ih =>
    intro lastError
    obtain ⟨e, hae, hce⟩ := retriable_attempt q.2 (hpre q (List.mem_cons_self q pre))
    have ih' := ih (fun x hx => hpre x (List.mem_cons_of_mem q hx))
    obtain ⟨u, o⟩ := q
    simp only [List.cons_append, List.map_cons, submitLoop]
    rw [hae]
    simp only [hce, Bool.false_eq_true, if_false, List.append_eq]
    rw [ih' (some e)]

/-- C3: a client-class (4xx) response from a tried endpoint is surfaced
immediately as the dispatcher's error and no later endpoint is attempted;
earlier endpoints in the sequence advanced only because each failed with a
server-class error or a timeout (`retriable`). -/
theorem c3_client_error_immediate (pre : List (Str × FetchOutcome)) (url : Str)
    (s : Nat) (tok : Str) (rest : List (Str × FetchOutcome))
    (hpre : ∀ q ∈ pre, retriable q.2 = true) (h4 : 400 ≤ s) (h5 : s < 500) :
    submitWithFallback (pre ++ (url, .response s tok) :: rest) =
      .error (.clientError s) ∧
    attemptedEndpoints (pre ++ (url, .response s tok) :: rest) =
      pre.map Prod.fst ++ [url] := by
  have h := submitLoop_client pre url s tok rest hpre h4 h5 none
  unfold submitWithFallback attemptedEndpoints
  rw [h]
  exact ⟨rfl, rfl⟩

/-- C3 witness: the spec's example — A times out, B answers 400, C would
succeed; the result is B's client error and C is never attempted. -/
theorem c3_client_error_immediate_witness :
    submitWithFallback
        [("A".data, .abort), ("B".data, .response 400 "".data),
         ("C".data, .response 200 "tC".data)] =
      .error (.clientError 400) ∧
    attemptedEndpoints
        [("A".data, .abort), ("B".data, .response 400 "".data),
         ("C".data, .response 200 "tC".data)] =
      ["A".data, "B".data] :=
  c3_client_error_immediate [("A".data, .abort)] "B".data 400 "".data
    [("C".data, .response 200 "tC".data)] (by decide) (by decide) (by decide)

theorem submitLoop_success (pre : List (Str × FetchOutcome)) (url : Str) (s : Nat)
    (tok : Str) (rest : List (Str × FetchOutcome))
    (hpre : ∀ q ∈ pre, retriable q.2 = true) (hok : respOk s = true) :
    ∀ lastError : Option SubmitError,
      submitLoop (pre ++ (url, .response s tok) :: rest) lastError =
        (.ok (tok, url), pre.map Prod.fst ++ [url]) := by
  induction pre with
  | nil =>
    intro lastError
    have ha : attemptResult (.response s tok) = .ok tok := by
      simp [attemptResult, hok]
    simp [submitLoop, ha]
  | cons q pre ih =>
    intro lastError
    obtain ⟨e, hae, hce⟩ := retriable_attempt q.2 (hpre q (List.mem_cons_self q pre))
    have ih' := ih (fun x hx => hpre x (List.mem_cons_of_mem q hx))
    obtain ⟨u, o⟩ := q
    simp only [List.cons_append, List.map_cons, submitLoop]
    rw [hae]
    simp only [hce, Bool.false_eq_true, if_false, List.append_eq]
    rw [ih' (some e)]

theorem submitLoop_exhaust (eps : List (Str × FetchOutcome))
    (hall : ∀ q ∈ eps, retriable q.2 = true) :
    ∀ lastError : Option SubmitError,
      submitLoop eps lastError =
        (.error (match eps.getLast? with
                 | none => lastError.getD .allFailed
                 | some q => attemptError q.2),
         eps.map Prod.fst) := by
  induction eps with
  | nil => intro lastError; rfl
  | cons q eps ih =>
    intro lastError
    obtain ⟨e, hae, hce⟩ := retriable_attempt q.2 (hall q (List.mem_cons_self q eps))
    have ih' := ih (fun x hx => hall x (List.mem_cons_of_mem q hx))
    obtain ⟨u, o⟩ := q
    simp only [List.map_cons, submitLoop]
    rw [hae]
    simp only [hce, Bool.false_eq_true, if_false]
    rw [ih' (some e)]
    cases eps with
    | nil =>
      have hatt : attemptError o = e := by
        unfold attemptError
        rw [hae]
      simp [hatt]
    | cons q2 eps2 =>
      rw [List.getLast?_cons_cons]
      simp only [Prod.mk.injEq, List.map_cons]
      refine ⟨?_, trivial⟩
      cases hg : (q2 :: eps2).getLast? with
      | none => simp at hg
      | some q3 => rfl

/-- C4 counterexample: with endpoints P (timeout), Q (404), R (would succeed),
the dispatcher fails — yet R was never attempted, so the dispatcher does not
"fail only after every configured endpoint has been tried". -/
theorem c4_counterexample :
    submitWithFallback
        [("P".data, .abort), ("Q".data, .response 404 "q".data),
         ("R".data, .response 200 "r".data)] =
      .error (.clientError 404) ∧
    attemptedEndpoints
        [("P".data, .abort), ("Q".data, .response 404 "q".data),
         ("R".data, .response 200 "r".data)] =
      ["P".data, "Q".data] ∧
    ¬ ("R".data ∈ attemptedEndpoints
        [("P".data, .abort), ("Q".data, .response 404 "q".data),
         ("R".data, .response 200 "r".data)]) := by
  refine ⟨rfl, rfl, by decide⟩

/-- C4 amended: the dispatcher tries endpoints in fixed order and returns the
token/endpoint pair of the first endpoint that answers successfully, provided
every earlier endpoint failed with a server-class error or timeout; except
when a client-class failure surfaces immediately (C3), it fails only after
every configured endpoint has been tried, surfacing the last observed error —
or the synthetic all-unavailable error when the endpoint list is empty, so no
error was observed. -/
theorem c4_fallback_amended :
    (∀ (pre : List (Str × FetchOutcome)) (url : Str) (s : Nat) (tok : Str)
        (rest : List (Str × FetchOutcome)),
      (∀ q ∈ pre, retriable q.2 = true) → respOk s = true →
      submitWithFallback (pre ++ (url, .response s tok) :: rest) = .ok (tok, url) ∧
      attemptedEndpoints (pre ++ (url, .response s tok) :: rest) =
        pre.map Prod.fst ++ [url]) ∧
    (∀ eps : List (Str × FetchOutcome),
      (∀ q ∈ eps, retriable q.2 = true) →
      submitWithFallback eps = .error (lastErrOf eps) ∧
      attemptedEndpoints eps = eps.map Prod.fst) ∧
    submitWithFallback [] = .error .allFailed := by
  refine ⟨?_, ?_, rfl⟩
  · intro pre url s tok rest hpre hok
    have h := submitLoop_success pre url s tok rest hpre hok none
    unfold submitWithFallback attemptedEndpoints
    rw [h]
    exact ⟨rfl, rfl⟩
  · intro eps hall
    have h := submitLoop_exhaust eps hall none
    unfold submitWithFallback attemptedEndpoints lastErrOf
    rw [h]
    exact ⟨rfl, rfl⟩

/-- C4 amended witness: the spec's example — A and B time out, C succeeds;
the returned pair is C's and all three endpoints were attempted. -/
theorem c4_fallback_amended_witness :
    submitWithFallback
        [("A".data, .abort), ("B".data, .abort), ("C".data, .response 200 "tokC".data)] =
      .ok ("tokC".data, "C".data) ∧
    attemptedEndpoints
        [("A".data, .abort), ("B".data, .abort), ("C".data, .response 200 "tokC".data)] =
      ["A".data, "B".data, "C".data] :=
  c4_fallback_amended.1 [("A".data, .abort), ("B".data, .abort)] "C".data 200
    "tokC".data [] (by decide) (by decide)

/-! ## Polling worker claims -/

/-- C8: when the backend reports status id 6 (compilation failure) for a
running job, the poll step writes a terminal `error` update carrying the
decoded compiler diagnostic output, with no score computed from test cases
(score 0) — regardless of whether the problem could be fetched — and that
update is not the `completed` state. -/
theorem c8_compile_error_terminal (so se co : Option Str) (prob : Option Problem) :
    pollStep { statusId := 6, stdout := so, stderr := se, compile_output := co } prob =
      some { status := "error".data, stdout := optStr co, stderr := [], score := 0 } ∧
    ∀ u : JobUpdate,
      pollStep { statusId := 6, stdout := so, stderr := se, compile_output := co } prob =
        some u → ¬ u.status = "completed".data := by
  constructor
  · rfl
  · intro u hu
    have h1 : pollStep { statusId := 6, stdout := so, stderr := se, compile_output := co }
        prob =
        some { status := "error".data, stdout := optStr co, stderr := [], score := 0 } := rfl
    rw [h1] at hu
    rw [← Option.some.inj hu]
    intro hfalse
    have hne : ¬ ("error".data : Str) = "completed".data := by decide
    exact absurd hfalse hne

/-- C8 witness at a concrete compile-error response. -/
theorem c8_compile_error_terminal_witness :
    pollStep { statusId := 6, stdout := none, stderr := none,
               compile_output := some "boom".data } none =
      some { status := "error".data, stdout := "boom".data, stderr := [], score := 0 } :=
  (c8_compile_error_terminal none none (some "boom".data) none).1

/-- C5: for a finished non-compile-error response and a problem with at least
one test case, the poll step stores status `completed` and the score
`passedCount / totalCases * 100` rounded to two decimal places, where
`passedCount` is the number of `Accepted` results of the parse. -/
theorem c5_score_rounding (sid : Nat) (so se co : Option Str) (p : Problem)
    (h2 : ¬ sid ≤ 2) (h6 : ¬ sid = 6) (_hlen : 1 ≤ p.testCases.length) :
    pollStep { statusId := sid, stdout := so, stderr := se, compile_output := co }
        (some p) =
      some { status := "completed".data, stdout := optStr so, stderr := optStr se,
             score := round2
               ((countAccepted (parseJudge0Output (optStr so) p).1 : ℚ) /
                 (p.testCases.length : ℚ) * 100) } := by
  unfold pollStep
  rw [if_neg h2, if_neg h6]
  simp only []
  congr 2
  rw [show (parseJudge0Output (optStr so) p).2 =
        countAccepted (parseJudge0Output (optStr so) p).1 from
      gradeCases_snd_eq_count (judgeLines (optStr so)) p.testCases 0]

/-- C5 witness: three test cases, one passing — the stored score is exactly
`33.33`. -/
theorem c5_score_rounding_witness :
    pollStep { statusId := 4, stdout := some exC5Stdout, stderr := none,
               compile_output := none } (some exC5Problem) =
      some { status := "completed".data, stdout := exC5Stdout, stderr := [],
             score := 3333 / 100 } := by
  have h := c5_score_rounding 4 (some exC5Stdout) none none exC5Problem
    (by decide) (by decide) (by decide)
  rw [h]
  have hc : countAccepted (parseJudge0Output (optStr (some exC5Stdout)) exC5Problem).1 = 1 := by
    decide
  have hl : exC5Problem.testCases.length = 3 := rfl
  rw [hc, hl]
  have hs : round2 (((1 : Nat) : ℚ) / ((3 : Nat) : ℚ) * 100) = 3333 / 100 := by
    norm_num [round2]
  rw [hs]
  rfl

/-! ## Code wrapper claims -/

theorem startsWithStr_iff (needle : Str) : ∀ hay : Str,
    startsWithStr needle hay = true ↔ ∃ t : Str, hay = needle ++ t := by
  induction needle with
  | nil =>
    intro hay
    simp [startsWithStr]
  | cons p ps ih =>
    intro hay
    cases hay with
    | nil =>
      simp [startsWithStr]
    | cons c cs =>
      simp only [startsWithStr, Bool.and_eq_true, beq_iff_eq, ih cs, List.cons_append,
        List.cons.injEq]
      constructor
      · rintro ⟨hpc, t, ht⟩
        exact ⟨t, hpc.symm, ht⟩
      · rintro ⟨t, hcp, ht⟩
        exact ⟨hcp.symm, t, ht⟩

theorem containsSub_iff (needle : Str) : ∀ hay : Str,
    containsSub needle hay = true ↔
      ∃ pre post : Str, hay = pre ++ needle ++ post := by
  intro hay
  induction hay with
  | nil =>
    simp only [containsSub, startsWithStr_iff]
    constructor
    · rintro ⟨t, ht⟩
      exact ⟨[], t, ht⟩
    · rintro ⟨pre, post, h⟩
      have hpre : pre = [] := by
        cases pre with
        | nil => rfl
        | cons a b => simp at h
      subst hpre
      exact ⟨post, by simpa using h⟩
  | cons c t ih =>
    simp only [containsSub, Bool.or_eq_true, startsWithStr_iff, ih]
    constructor
    · rintro (⟨u, hu⟩ | ⟨pre, post, h⟩)
      · exact ⟨[], u, by simpa using hu⟩
      · exact ⟨c :: pre, post, by simp [h]⟩
    · rintro ⟨pre, post, h⟩
      cases pre with
      | nil =>
        exact Or.inl ⟨post, by simpa using h⟩
      | cons a b =>
        simp only [List.cons_append, List.cons.injEq] at h
        exact Or.inr ⟨b, post, h.2⟩

/-- C6 counterexample: for the Java branch the generated harness does not
embed the raw user code verbatim — `public class Solution` is demoted to
`class Solution`, so the raw text occurs nowhere in the output. -/
theorem c6_counterexample :
    ¬ ∃ pre post : Str,
      generateRunner "java".data exC6Problem exC6Code = pre ++ exC6Code ++ post := by
  intro hex
  obtain ⟨pre, post, hp⟩ := hex
  have htrue : containsSub exC6Code (generateRunner "java".data exC6Problem exC6Code) = true :=
    (containsSub_iff exC6Code _).mpr ⟨pre, post, hp⟩
  have hfalse : containsSub exC6Code (generateRunner "java".data exC6Problem exC6Code) = false := by
    decide
  rw [hfalse] at htrue
  exact absurd htrue (by decide)

/-- C6 amended: for javascript, typescript, python and cpp the generated
harness embeds the raw user code verbatim; for java it embeds the user code
with the first `public class Solution` rewritten to `class Solution`; for the
supported language `c` no harness is generated — the raw user code is
returned unchanged.  The per-case harness loop shared by the generated
templates (modelled by `runHarnessModel`) prints exactly one marker line per
test case in ordinal order, with `ERROR_RUNTIME` for a case whose entry-point
invocation throws, so a single failing case never aborts the remaining
cases. -/
theorem c6_wrapper_amended :
    (∀ (p : Problem) (code : Str), ∃ pre post : Str,
      generateRunner "javascript".data p code = pre ++ code ++ post) ∧
    (∀ (p : Problem) (code : Str), ∃ pre post : Str,
      generateRunner "typescript".data p code = pre ++ code ++ post) ∧
    (∀ (p : Problem) (code : Str), ∃ pre post : Str,
      generateRunner "python".data p code = pre ++ code ++ post) ∧
    (∀ (p : Problem) (code : Str), ∃ pre post : Str,
      generateRunner "cpp".data p code = pre ++ code ++ post) ∧
    (∀ (p : Problem) (code : Str), ∃ pre post : Str,
      generateRunner "java".data p code = pre ++ replacePCS code ++ post) ∧
    (∀ (p : Problem) (code : Str), generateRunner "c".data p code = code) ∧
    (∀ (entry : Nat → Except Unit Str) (n : Nat),
      (runHarnessModel entry n).length = n ∧
      ∀ k : Nat, k < n →
        (runHarnessModel entry n)[k]? =
          some (markerLine (k + 1) (harnessResult (entry k)))) := by
  refine ⟨?_, ?_, ?_, ?_, ?_, ?_, ?_⟩
  · intro p code
    exact ⟨jsPre,
      jsTail p.testCases (if p.functionName = [] then "solve".data else p.functionName), rfl⟩
  · intro p code
    exact ⟨jsPre,
      jsTail p.testCases (if p.functionName = [] then "solve".data else p.functionName), rfl⟩
  · intro p code
    exact ⟨pyPre,
      pyTail p.testCases (if p.functionName = [] then "solve".data else p.functionName), rfl⟩
  · intro p code
    exact ⟨cppPre,
      cppTail p.testCases (if p.functionName = [] then "solve".data else p.functionName), rfl⟩
  · intro p code
    exact ⟨javaPre,
      javaTail p.testCases (if p.functionName = [] then "solve".data else p.functionName), rfl⟩
  · intro p code
    rfl
  · intro entry n
    constructor
    · simp [runHarnessModel]
    · intro k hk
      simp [runHarnessModel, List.getElem?_range hk]

/-- C6 amended witness: a concrete entry oracle whose second case throws, and
the Java branch embedding a rewritten concrete user code. -/
theorem c6_wrapper_amended_witness :
    (runHarnessModel exC6Entry 2).length = 2 ∧
    (runHarnessModel exC6Entry 2)[1]? =
      some "__JUDGE__ Test Case 2: ERROR_RUNTIME".data ∧
    (∃ pre post : Str,
      generateRunner "java".data exC5Problem exC6WCode =
        pre ++ replacePCS exC6WCode ++ post) := by
  refine ⟨(c6_wrapper_amended.2.2.2.2.2.2 exC6Entry 2).1, ?_,
    c6_wrapper_amended.2.2.2.2.1 exC5Problem exC6WCode⟩
  rw [(c6_wrapper_amended.2.2.2.2.2.2 exC6Entry 2).2 1 (by decide)]
  rfl

end STS
